import Mathlib

/-!
# Verification of the Stm32Loader bootloader protocol engines

Shallow embedding of the UART (`src/serial.rs`) and SPI (`src/spi.rs`)
protocol engines of the Stm32Loader host-side driver, together with the
shared data model (`src/dfuloader.rs`).

Bytes are modelled as `Nat` (masked with `% 256` / `&&& 0xFF` exactly where
the Rust code performs machine arithmetic on `u8`/`u16`/`u32`).  The
physical link is modelled as a scripted test double: a function from the
call index to the outcome the device delivers to that call, together with
counters for the number of operations performed and a log of the
operations issued.  Loops that the source runs without a bound
(`read_bytes` and the inline accumulation loop of `supported_functions`)
take a fuel parameter; exhausting the fuel is reported with a dedicated
`diverged` outcome.  Rust panics (out-of-bounds indexing / slicing) are
reported with a dedicated `panicked` outcome.
-/

namespace Stm32

/-- Kind of an underlying I/O error, mirroring the only distinction
`std::io::ErrorKind` that the source inspects: `TimedOut` vs anything else. -/
inductive IoErrorKind
  | timedOut
  | other
deriving DecidableEq, Repr

/-- An underlying I/O error.  `tag` stands for the identity of the concrete
`std::io::Error` value, so that "propagated unchanged" is expressible. -/
structure IoError where
  kind : IoErrorKind
  tag : Nat
deriving DecidableEq, Repr

/-- `DfuLoaderError` from `src/dfuloader.rs`. -/
inductive DfuLoaderError
  | SyncError
  | AlreadySynced
  | ProtocolError
  | IOError (e : IoError)
  | NotImplemented
  | Timeout
  | CommandFailed (status : Nat)
deriving DecidableEq, Repr

/-- `Functions` from `src/dfuloader.rs`: the logical command set. -/
inductive Functions
  | Get
  | GetVersion
  | GetId
  | ReadMemory
  | Go
  | WriteMemory
  | Erase
  | ExtendedErase
  | Special
  | ExtendedSpecial
  | WriteProtect
  | WriteUnprotect
  | ReadoutProtect
  | ReadoutUnprotect
  | GetChecksum
  | Unknown (value : Nat)
deriving DecidableEq, Repr

/-- `impl From<u8> for Functions` from `src/dfuloader.rs`. -/
def Functions.ofByte (value : Nat) : Functions :=
  if value = 0x00 then Functions.Get
  else if value = 0x01 then Functions.GetVersion
  else if value = 0x02 then Functions.GetId
  else if value = 0x11 then Functions.ReadMemory
  else if value = 0x21 then Functions.Go
  else if value = 0x31 then Functions.WriteMemory
  else if value = 0x43 then Functions.Erase
  else if value = 0x44 then Functions.ExtendedErase
  else if value = 0x50 then Functions.Special
  else if value = 0x51 then Functions.ExtendedSpecial
  else if value = 0x63 then Functions.WriteProtect
  else if value = 0x73 then Functions.WriteUnprotect
  else if value = 0x82 then Functions.ReadoutProtect
  else if value = 0x92 then Functions.ReadoutUnprotect
  else if value = 0xA1 then Functions.GetChecksum
  else Functions.Unknown value

/-- `BootLoaderInfo` from `src/dfuloader.rs`. -/
structure BootLoaderInfo where
  version : Nat
  supported_functions : List Functions
deriving DecidableEq, Repr

/-- `BootloaderOptions` from `src/dfuloader.rs`. -/
structure BootloaderOptions where
  version : Nat
  options : Nat
deriving DecidableEq, Repr

/-- `BootloaderChipId` from `src/dfuloader.rs`. -/
structure BootloaderChipId where
  chipid : Nat
deriving DecidableEq, Repr

/-- Result of running an embedded operation.  `panicked` models a Rust
panic (out-of-bounds index/slice); `diverged` models running out of fuel
in a loop that the source runs without a bound. -/
inductive Outcome (α : Type)
  | ok (a : α)
  | err (e : DfuLoaderError)
  | panicked
  | diverged
deriving DecidableEq, Repr

/-- One operation issued on the serial port. -/
inductive LinkOp
  | write (data : List Nat)
  | readExact (n : Nat)
  | read
deriving DecidableEq, Repr

/-- Scripted test double for the serial port.  `writeResults i` is the
outcome the i-th `write_all` call gets; `reads i` is the outcome the i-th
read call (`read_exact` or `read`) gets, with the delivered bytes. -/
structure Link where
  writeResults : Nat → Option IoError
  reads : Nat → Except IoError (List Nat)
  nw : Nat
  nr : Nat
  log : List LinkOp

/-- `write_all`: consumes the next scripted write outcome and logs the frame. -/
def Link.writeAll (l : Link) (data : List Nat) : Option IoError × Link :=
  (l.writeResults l.nw,
   { l with nw := l.nw + 1, log := l.log ++ [LinkOp.write data] })

/-- `read_exact` into a buffer of `n` bytes: on success the buffer holds the
delivered prefix (the buffer is zero-initialised in the source). -/
def Link.readExact (l : Link) (n : Nat) : Except IoError (List Nat) × Link :=
  (match l.reads l.nr with
   | Except.error e => Except.error e
   | Except.ok bs => Except.ok (bs.take n ++ List.replicate (n - bs.length) 0),
   { l with nr := l.nr + 1, log := l.log ++ [LinkOp.readExact n] })

/-- `read` into a 255-byte buffer: delivers at most 255 bytes of the
scripted fragment. -/
def Link.readUpTo255 (l : Link) : Except IoError (List Nat) × Link :=
  (match l.reads l.nr with
   | Except.error e => Except.error e
   | Except.ok bs => Except.ok (bs.take 255),
   { l with nr := l.nr + 1, log := l.log ++ [LinkOp.read] })

/-- Sequencing for state-passing computations in `Except`. -/
def bindE {σ α β : Type} (x : Except DfuLoaderError α × σ)
    (f : α → σ → Except DfuLoaderError β × σ) : Except DfuLoaderError β × σ :=
  match x with
  | (Except.ok a, s) => f a s
  | (Except.error e, s) => (Except.error e, s)

/-- Sequencing an `Except` computation before an `Outcome` computation. -/
def bindEO {σ α β : Type} (x : Except DfuLoaderError α × σ)
    (f : α → σ → Outcome β × σ) : Outcome β × σ :=
  match x with
  | (Except.ok a, s) => f a s
  | (Except.error e, s) => (Outcome.err e, s)

/-- Sequencing for state-passing computations in `Outcome`. -/
def bindO {σ α β : Type} (x : Outcome α × σ)
    (f : α → σ → Outcome β × σ) : Outcome β × σ :=
  match x with
  | (Outcome.ok a, s) => f a s
  | (Outcome.err e, s) => (Outcome.err e, s)
  | (Outcome.panicked, s) => (Outcome.panicked, s)
  | (Outcome.diverged, s) => (Outcome.diverged, s)

namespace Serial

/-- `ACK` from `src/serial.rs`. -/
def ACK : Nat := 0x79

/-- `NAK` from `src/serial.rs`. -/
def NAK : Nat := 0x1F

/-- `calculate_checksum` from `src/serial.rs`: XOR fold started at the
first byte.  The source indexes `data[0]` and so panics on an empty frame;
every call site passes a non-empty frame. -/
def calculate_checksum (data : List Nat) : Nat :=
  match data with
  | [] => 0
  | b :: rest => rest.foldl (fun c v => c ^^^ v) b

/-- `read_ack` from `src/serial.rs`. -/
def read_ack (l : Link) : Except DfuLoaderError Unit × Link :=
  match Link.readExact l 1 with
  | (Except.error e, l') => (Except.error (DfuLoaderError.IOError e), l')
  | (Except.ok bs, l') =>
    if bs.getD 0 0 ≠ 0x79 then
      (Except.error (DfuLoaderError.CommandFailed (bs.getD 0 0)), l')
    else (Except.ok (), l')

/-- `send_command` from `src/serial.rs`: sends `[command, command ^ 0xFF]`,
turning a failed write into `ProtocolError`, then reads one ACK byte. -/
def send_command (l : Link) (command : Nat) : Except DfuLoaderError Unit × Link :=
  match Link.writeAll l [command, command ^^^ 0xFF] with
  | (some _, l') => (Except.error DfuLoaderError.ProtocolError, l')
  | (none, l') => read_ack l'

/-- The 5-byte checksummed big-endian address frame built inline by
`read_memory`, `write_memory` and `go` in `src/serial.rs`. -/
def address_frame (address : Nat) : List Nat :=
  let a := [(address >>> 24) % 256, (address >>> 16) % 256,
            (address >>> 8) % 256, address % 256]
  a ++ [calculate_checksum a]

/-- The retry loop of `initialize` from `src/serial.rs`, by remaining
attempts. -/
def initialize_loop : Nat → Link → Except DfuLoaderError Unit × Link
  | 0, l => (Except.error DfuLoaderError.Timeout, l)
  | k + 1, l =>
    match Link.writeAll l [0x7F] with
    | (some e, l1) => (Except.error (DfuLoaderError.IOError e), l1)
    | (none, l1) =>
      match Link.readExact l1 1 with
      | (Except.error e, l2) =>
        if e.kind = IoErrorKind.timedOut then initialize_loop k l2
        else (Except.error (DfuLoaderError.IOError e), l2)
      | (Except.ok bs, l2) =>
        if bs.getD 0 0 = ACK ∨ bs.getD 0 0 = NAK then (Except.ok (), l2)
        else initialize_loop k l2

/-- The `initialize` operation from `src/serial.rs`: up to 10 sync
attempts.  (Renamed: the source's name is a reserved word in Lean.) -/
def initializeConn (l : Link) : Except DfuLoaderError Unit × Link :=
  initialize_loop 10 l

/-- The unbounded byte-accumulation loop of `read_bytes` from
`src/serial.rs`, with fuel. -/
def read_bytes_loopF (size : Nat) : Nat → List Nat → Nat → Link → Outcome (List Nat) × Link
  | 0, _, _, l => (Outcome.diverged, l)
  | fuel + 1, data, n, l =>
    match Link.readUpTo255 l with
    | (Except.error e, l') => (Outcome.err (DfuLoaderError.IOError e), l')
    | (Except.ok frag, l') =>
      let data' := data ++ frag
      let n' := n + frag.length
      if n' = size then (Outcome.ok data', l')
      else read_bytes_loopF size fuel data' n' l'

/-- `read_bytes` from `src/serial.rs`: loops until exactly `size` bytes
have accumulated. -/
def read_bytesF (fuel : Nat) (size : Nat) (l : Link) : Outcome (List Nat) × Link :=
  read_bytes_loopF size fuel [] 0 l

/-- `get_id` from `src/serial.rs`.  The addition `length[0] + 2` is `u8`
arithmetic, modelled with the release-build wrap-around `% 256`; the
source indexes `response[2]` before checking `response.len()`, so the
out-of-bounds panic is modelled through `List.get?`. -/
def get_id (fuel : Nat) (l : Link) : Outcome BootloaderChipId × Link :=
  bindEO (send_command l 0x02) fun _ l1 =>
  match Link.readExact l1 1 with
  | (Except.error _, l2) => (Outcome.err DfuLoaderError.ProtocolError, l2)
  | (Except.ok bs, l2) =>
    bindO (read_bytesF fuel ((bs.getD 0 0 + 2) % 256) l2) fun response l3 =>
      match response.get? 2 with
      | none => (Outcome.panicked, l3)
      | some b =>
        if b ≠ ACK then (Outcome.err DfuLoaderError.ProtocolError, l3)
        else if response.length ≠ 3 then (Outcome.err DfuLoaderError.ProtocolError, l3)
        else (Outcome.ok { chipid := ((response.getD 0 0) <<< 8) ||| response.getD 1 0 }, l3)

/-- Writing `src` into `dest[n..n + src.length]`, as
`copy_from_slice` does once its bounds check has passed. -/
def setSlice (dest : List Nat) (n : Nat) (src : List Nat) : List Nat :=
  dest.take n ++ src ++ dest.drop (n + src.length)

/-- The inline byte-accumulation loop of `supported_functions` from
`src/serial.rs`, with fuel.  The response buffer is a fixed 255-byte
array; `response[n..n+v].copy_from_slice(..)` panics when `n + v > 255`. -/
def sf_loopF (target : Nat) : Nat → List Nat → Nat → Link → Outcome (List Nat × Nat) × Link
  | 0, _, _, l => (Outcome.diverged, l)
  | fuel + 1, response, n, l =>
    match Link.readUpTo255 l with
    | (Except.error _, l') => (Outcome.err DfuLoaderError.ProtocolError, l')
    | (Except.ok frag, l') =>
      if n + frag.length ≤ 255 then
        let response' := setSlice response n frag
        let n' := n + frag.length
        if n' = target then (Outcome.ok (response', n'), l')
        else sf_loopF target fuel response' n' l'
      else (Outcome.panicked, l')

/-- `supported_functions` from `src/serial.rs`.  After the loop the source
checks `response[n-1]` and then slices `response[1..n-2]`; the slice
panics when `n - 2 < 1`, i.e. for a zero length byte. -/
def supported_functions (fuel : Nat) (l : Link) : Outcome BootLoaderInfo × Link :=
  bindEO (send_command l 0x00) fun _ l1 =>
  match Link.readExact l1 1 with
  | (Except.error _, l2) => (Outcome.err DfuLoaderError.ProtocolError, l2)
  | (Except.ok bs, l2) =>
    bindO (sf_loopF (bs.getD 0 0 + 2) fuel (List.replicate 255 0) 0 l2) fun rn l3 =>
      if (rn.1).getD (rn.2 - 1) 0 ≠ 0x79 then
        (Outcome.err DfuLoaderError.ProtocolError, l3)
      else if 3 ≤ rn.2 then
        (Outcome.ok { version := (rn.1).getD 0 0,
                      supported_functions :=
                        (((rn.1).drop 1).take (rn.2 - 3)).map Functions.ofByte }, l3)
      else (Outcome.panicked, l3)

/-- `write_memory` from `src/serial.rs`.  After the length validation the
parameter `data` (the payload) is shadowed by the 5-byte address frame, so
the second frame written is built from the address frame, not from the
payload. -/
def write_memory (address : Nat) (payload : List Nat) (l : Link) :
    Except DfuLoaderError Unit × Link :=
  if payload.length > 256 ∨ payload.length = 0 then
    (Except.error DfuLoaderError.ProtocolError, l)
  else
    bindE (send_command l 0x31) fun _ l1 =>
    let data := address_frame address
    match Link.writeAll l1 data with
    | (some e, l2) => (Except.error (DfuLoaderError.IOError e), l2)
    | (none, l2) =>
      bindE (read_ack l2) fun _ l3 =>
      let out := ((data.length - 1) % 256) :: data
      let out := out ++ [calculate_checksum out]
      match Link.writeAll l3 out with
      | (some e, l4) => (Except.error (DfuLoaderError.IOError e), l4)
      | (none, l4) => read_ack l4

/-- The ACK-polling loop of `erase_all` from `src/serial.rs`: read
timeouts are tolerated, every other error propagates, exhaustion is
`Timeout`. -/
def erase_all_loop : Nat → Link → Except DfuLoaderError Unit × Link
  | 0, l => (Except.error DfuLoaderError.Timeout, l)
  | k + 1, l =>
    match read_ack l with
    | (Except.ok _, l') => (Except.ok (), l')
    | (Except.error (DfuLoaderError.IOError e), l') =>
      if e.kind = IoErrorKind.timedOut then erase_all_loop k l'
      else (Except.error (DfuLoaderError.IOError e), l')
    | (Except.error e, l') => (Except.error e, l')

/-- `erase_all` from `src/serial.rs`. -/
def erase_all (l : Link) : Except DfuLoaderError Unit × Link :=
  bindE (send_command l 0x44) fun _ l1 =>
  match Link.writeAll l1 [0xFF, 0xFF, 0x00] with
  | (some e, l2) => (Except.error (DfuLoaderError.IOError e), l2)
  | (none, l2) => erase_all_loop 20 l2

/-- `go` from `src/serial.rs`. -/
def go (address : Nat) (l : Link) : Except DfuLoaderError Unit × Link :=
  bindE (send_command l 0x21) fun _ l1 =>
  match Link.writeAll l1 (address_frame address) with
  | (some e, l2) => (Except.error (DfuLoaderError.IOError e), l2)
  | (none, l2) => read_ack l2

end Serial

/-- One operation issued on the SPI device. -/
inductive SpiOp
  | transfer (tx : List Nat)
  | write (data : List Nat)
  | readExact (n : Nat)
deriving DecidableEq, Repr

/-- Scripted test double for the SPI device.  `transfers i` is the receive
buffer content the i-th full-duplex transfer gets; `writeResults i` the
outcome of the i-th `write`; `reads i` the bytes delivered to the i-th
`read_exact`. -/
structure SpiLink where
  transfers : Nat → Except IoError (List Nat)
  writeResults : Nat → Option IoError
  reads : Nat → Except IoError (List Nat)
  nt : Nat
  nw : Nat
  nr : Nat
  log : List SpiOp

/-- A full-duplex transfer: the receive buffer has the same size as the
transmitted frame and is zero-initialised. -/
def SpiLink.transfer (l : SpiLink) (tx : List Nat) : Except IoError (List Nat) × SpiLink :=
  (match l.transfers l.nt with
   | Except.error e => Except.error e
   | Except.ok rx => Except.ok (rx.take tx.length ++ List.replicate (tx.length - rx.length) 0),
   { l with nt := l.nt + 1, log := l.log ++ [SpiOp.transfer tx] })

/-- `write` on the SPI device. -/
def SpiLink.write (l : SpiLink) (data : List Nat) : Option IoError × SpiLink :=
  (l.writeResults l.nw,
   { l with nw := l.nw + 1, log := l.log ++ [SpiOp.write data] })

/-- `read_exact` on the SPI device into an `n`-byte zero-initialised buffer. -/
def SpiLink.readExact (l : SpiLink) (n : Nat) : Except IoError (List Nat) × SpiLink :=
  (match l.reads l.nr with
   | Except.error e => Except.error e
   | Except.ok bs => Except.ok (bs.take n ++ List.replicate (n - bs.length) 0),
   { l with nr := l.nr + 1, log := l.log ++ [SpiOp.readExact n] })

namespace Spi

/-- `SpiConnection::send_command` from `src/spi.rs`: a 6-byte transfer
whose 5th response byte must be ACK. -/
def send_command (l : SpiLink) (command : Nat) : Except DfuLoaderError Unit × SpiLink :=
  match SpiLink.transfer l [0x5A, command, command ^^^ 0xFF, 0x00, 0x00, 0x79] with
  | (Except.error e, l') => (Except.error (DfuLoaderError.IOError e), l')
  | (Except.ok rx, l') =>
    if rx.getD 4 0 ≠ 0x79 then (Except.error DfuLoaderError.ProtocolError, l')
    else (Except.ok (), l')

/-- `SpiConnection::ack_frame` from `src/spi.rs`: a 3-byte transfer whose
2nd response byte must be ACK, otherwise `CommandFailed(status)`. -/
def ack_frame (l : SpiLink) : Except DfuLoaderError Unit × SpiLink :=
  match SpiLink.transfer l [0x00, 0x00, 0x79] with
  | (Except.error e, l') => (Except.error (DfuLoaderError.IOError e), l')
  | (Except.ok rx, l') =>
    if rx.getD 1 0 ≠ 0x79 then
      (Except.error (DfuLoaderError.CommandFailed (rx.getD 1 0)), l')
    else (Except.ok (), l')

/-- `SpiConnection::send_address` from `src/spi.rs`. -/
def send_address (address : Nat) (l : SpiLink) : Except DfuLoaderError Unit × SpiLink :=
  let t0 := (address >>> 24) &&& 0xFF
  let t1 := (address >>> 16) &&& 0xFF
  let t2 := (address >>> 8) &&& 0xFF
  let t3 := address &&& 0xFF
  match SpiLink.write l [t0, t1, t2, t3, t0 ^^^ t1 ^^^ t2 ^^^ t3] with
  | (some e, l') => (Except.error (DfuLoaderError.IOError e), l')
  | (none, l') => (Except.ok (), l')

/-- `SpiConnection::send_size` from `src/spi.rs`.  `size - 1` is `u16`
arithmetic, modelled with the release-build wrap-around, then truncated
to `u8`. -/
def send_size (l : SpiLink) (size : Nat) : Except DfuLoaderError Unit × SpiLink :=
  if size > 256 then (Except.error DfuLoaderError.ProtocolError, l)
  else
    let b := ((size + 65535) % 65536) % 256
    match SpiLink.write l [b, b ^^^ 0xFF] with
    | (some e, l') => (Except.error (DfuLoaderError.IOError e), l')
    | (none, l') => (Except.ok (), l')

/-- `SpiConnection::write_block` from `src/spi.rs`. -/
def write_block (l : SpiLink) (data : List Nat) : Except DfuLoaderError Unit × SpiLink :=
  match SpiLink.write l data with
  | (some e, l') => (Except.error (DfuLoaderError.IOError e), l')
  | (none, l') => (Except.ok (), l')

/-- `SpiConnection::read_block` from `src/spi.rs`: reads `size + 1` bytes
and returns the whole buffer (the leading dummy byte is returned too). -/
def read_block (size : Nat) (l : SpiLink) : Except DfuLoaderError (List Nat) × SpiLink :=
  match SpiLink.readExact l (size + 1) with
  | (Except.error e, l') => (Except.error (DfuLoaderError.IOError e), l')
  | (Except.ok bs, l') => (Except.ok bs, l')

/-- The first polling loop of the `DfuLoader::write_unprotect`
implementation in `src/spi.rs`: up to 10 `ack_frame` polls tolerating
`CommandFailed(0xFF)`; a clean ACK breaks out; exhaustion also falls
through to the second loop. -/
def write_unprotect_loop1 : Nat → SpiLink → Option DfuLoaderError × SpiLink
  | 0, l => (none, l)
  | k + 1, l =>
    match ack_frame l with
    | (Except.ok _, l') => (none, l')
    | (Except.error (DfuLoaderError.CommandFailed s), l') =>
      if s = 0xFF then write_unprotect_loop1 k l'
      else (some (DfuLoaderError.CommandFailed s), l')
    | (Except.error e, l') => (some e, l')

/-- The second polling loop of `write_unprotect` in `src/spi.rs`: up to 20
`ack_frame` polls tolerating `CommandFailed(0xFF)` and
`CommandFailed(0xA5)`; a clean ACK returns success; exhaustion is
`Timeout`. -/
def write_unprotect_loop2 : Nat → SpiLink → Except DfuLoaderError Unit × SpiLink
  | 0, l => (Except.error DfuLoaderError.Timeout, l)
  | k + 1, l =>
    match ack_frame l with
    | (Except.ok _, l') => (Except.ok (), l')
    | (Except.error (DfuLoaderError.CommandFailed s), l') =>
      if s = 0xFF ∨ s = 0xA5 then write_unprotect_loop2 k l'
      else (Except.error (DfuLoaderError.CommandFailed s), l')
    | (Except.error e, l') => (Except.error e, l')

/-- `DfuLoader::write_unprotect` for the SPI engine (`src/spi.rs`,
lines 152-193). -/
def write_unprotect (l : SpiLink) : Except DfuLoaderError Unit × SpiLink :=
  bindE (send_command l 0x73) fun _ l1 =>
  match write_unprotect_loop1 10 l1 with
  | (some e, l2) => (Except.error e, l2)
  | (none, l2) => write_unprotect_loop2 20 l2

/-- `DfuLoader::read_memory` for the SPI engine (`src/spi.rs`). -/
def read_memory (address : Nat) (size : Nat) (l : SpiLink) :
    Except DfuLoaderError (List Nat) × SpiLink :=
  bindE (send_command l 0x11) fun _ l1 =>
  bindE (send_address address l1) fun _ l2 =>
  bindE (ack_frame l2) fun _ l3 =>
  bindE (send_size l3 size) fun _ l4 =>
  bindE (ack_frame l4) fun _ l5 =>
  read_block size l5

/-- `DfuLoader::write_memory` for the SPI engine (`src/spi.rs`): length
validation, command, address + ack, then the padded and checksummed data
block (the pad byte 0xFF is appended for odd payload lengths and is part
of the checksum), then a final ack frame. -/
def write_memory (address : Nat) (payload : List Nat) (l : SpiLink) :
    Except DfuLoaderError Unit × SpiLink :=
  if payload.length > 256 ∨ payload.length = 0 then
    (Except.error DfuLoaderError.ProtocolError, l)
  else
    bindE (send_command l 0x31) fun _ l1 =>
    bindE (send_address address l1) fun _ l2 =>
    bindE (ack_frame l2) fun _ l3 =>
    let block0 := ((payload.length - 1) % 256) :: payload
    let block1 := if payload.length % 2 = 1 then block0 ++ [0xFF] else block0
    let block := block1 ++ [Serial.calculate_checksum block1]
    bindE (write_block l3 block) fun _ l4 =>
    ack_frame l4

/-- The polling loop of `erase_all` in `src/spi.rs`: up to 20 `ack_frame`
polls tolerating `CommandFailed(0xFF)` and `CommandFailed(0xA5)`; a clean
ACK breaks; exhaustion falls through to `Ok(())`. -/
def erase_all_loop : Nat → SpiLink → Except DfuLoaderError Unit × SpiLink
  | 0, l => (Except.ok (), l)
  | k + 1, l =>
    match ack_frame l with
    | (Except.ok _, l') => (Except.ok (), l')
    | (Except.error (DfuLoaderError.CommandFailed s), l') =>
      if s = 0xFF ∨ s = 0xA5 then erase_all_loop k l'
      else (Except.error (DfuLoaderError.CommandFailed s), l')
    | (Except.error e, l') => (Except.error e, l')

/-- `DfuLoader::erase_all` for the SPI engine (`src/spi.rs`). -/
def erase_all (l : SpiLink) : Except DfuLoaderError Unit × SpiLink :=
  bindE (send_command l 0x44) fun _ l1 =>
  bindE (write_block l1 [0xFF, 0xFF, 0xFF ^^^ 0xFF]) fun _ l2 =>
  erase_all_loop 20 l2

end Spi

/-! ## Scripted links used by the theorems -/

/-- The data frame the specification describes for UART `write-memory`:
`[len-1] ++ data ++ checksum` with the checksum the XOR of the length byte
and all data bytes.  Stated from the spec's words, for comparison with the
frame the source actually builds. -/
def specWriteDataFrame (payload : List Nat) : List Nat :=
  let frame := ((payload.length - 1) % 256) :: payload
  frame ++ [Serial.calculate_checksum frame]

/-- A serial link whose writes all succeed and whose reads all deliver a
single ACK byte. -/
def allAckLink : Link :=
  { writeResults := fun _ => none
    reads := fun _ => Except.ok [0x79]
    nw := 0
    nr := 0
    log := [] }

/-- A serial link whose reads follow the script `g`, starting `r` reads
and `w` writes in, with log `lg`; all writes succeed. -/
def serialScriptAt (g : Nat → Except IoError (List Nat)) (w r : Nat) (lg : List LinkOp) : Link :=
  { writeResults := fun _ => none
    reads := g
    nw := w
    nr := r
    log := lg }

/-- A serial link delivering the fragment `f i` to the i-th read, starting
`r` reads and `w` writes in; all reads succeed, all writes succeed. -/
def serialFragLink (f : Nat → List Nat) (w r : Nat) (lg : List LinkOp) : Link :=
  serialScriptAt (fun i => Except.ok (f i)) w r lg

/-- Serial script for C2: command ACK, length byte 1, then the 3-byte
response `[version, opcode, ACK]` in one fragment. -/
def c2Link : Link :=
  serialScriptAt
    (fun i => if i = 0 then Except.ok [0x79]
              else if i = 1 then Except.ok [1]
              else Except.ok [0x10, 0x00, 0x79]) 0 0 []

/-- Serial script for `get_id` with length byte `L` followed by the
response `resp` delivered in one fragment. -/
def getIdLink (L : Nat) (resp : List Nat) : Link :=
  serialScriptAt
    (fun i => if i = 0 then Except.ok [0x79]
              else if i = 1 then Except.ok [L]
              else Except.ok resp) 0 0 []

/-- Serial script for C10: command ACK, length byte 8 (target 10), then
100-byte fragments forever, so the running total skips past the target. -/
def c10Link : Link :=
  serialScriptAt
    (fun i => if i = 0 then Except.ok [0x79]
              else if i = 1 then Except.ok [8]
              else Except.ok (List.replicate 100 0)) 0 0 []

/-- A serial link whose every write fails with the same I/O error. -/
def failWriteLink : Link :=
  { writeResults := fun _ => some { kind := IoErrorKind.other, tag := 7 }
    reads := fun _ => Except.ok [0x79]
    nw := 0
    nr := 0
    log := [] }

/-- An SPI link whose transfers follow the receive script `f`, starting
`t` transfers and `w` writes in with log `lg`; writes and reads all
succeed (reads deliver nothing). -/
def spiStateAt (f : Nat → List Nat) (t w : Nat) (lg : List SpiOp) : SpiLink :=
  { transfers := fun i => Except.ok (f i)
    writeResults := fun _ => none
    reads := fun _ => Except.ok []
    nt := t
    nw := w
    nr := 0
    log := lg }

/-- An SPI link whose every transfer observes ACK at every response byte. -/
def allAckSpiLink : SpiLink :=
  spiStateAt (fun _ => [0x79, 0x79, 0x79, 0x79, 0x79, 0x79]) 0 0 []

/-- SPI script for C7: every transfer acks, and the single `read_exact`
delivers the two bytes `[0xAA, 0xBB]` (dummy byte plus one data byte). -/
def c7Link : SpiLink :=
  { transfers := fun _ => Except.ok [0x79, 0x79, 0x79, 0x79, 0x79, 0x79]
    writeResults := fun _ => none
    reads := fun _ => Except.ok [0xAA, 0xBB]
    nt := 0
    nw := 0
    nr := 0
    log := [] }

/-- Number of `ack_frame` polls (3-byte `[0x00, 0x00, 0x79]` transfers) in
an SPI operation log. -/
def countAckPolls (log : List SpiOp) : Nat :=
  (log.filter (fun op => decide (op = SpiOp.transfer [0x00, 0x00, 0x79]))).length

/-- Sum of the lengths of `k` consecutive scripted fragments starting at
read index `i`. -/
def fragSum (f : Nat → List Nat) (i : Nat) : Nat → Nat
  | 0 => 0
  | k + 1 => (f i).length + fragSum f (i + 1) k

/-- The link operations logged by `k` sync attempts of `initialize`. -/
def initOps : Nat → List LinkOp
  | 0 => []
  | k + 1 => LinkOp.write [0x7F] :: LinkOp.readExact 1 :: initOps k

/-- The link operations logged by `k` `read_ack` polls. -/
def readAckOps (k : Nat) : List LinkOp :=
  List.replicate k (LinkOp.readExact 1)

/-- The SPI operations logged by `k` `ack_frame` polls. -/
def ackOps : Nat → List SpiOp
  | 0 => []
  | k + 1 => SpiOp.transfer [0x00, 0x00, 0x79] :: ackOps k

/-- A read script that always times out. -/
def timeoutReads : Nat → Except IoError (List Nat) :=
  fun i => Except.error { kind := IoErrorKind.timedOut, tag := i }

/-- A serial link whose reads always fail with the same non-timeout error. -/
def errReadLink : Link :=
  { writeResults := fun _ => none
    reads := fun _ => Except.error { kind := IoErrorKind.other, tag := 7 }
    nw := 0
    nr := 0
    log := [] }

/-- A serial link whose first write succeeds and whose later writes fail;
reads deliver ACK. -/
def secondWriteFailsLink : Link :=
  { writeResults := fun i => if i = 0 then none
                             else some { kind := IoErrorKind.other, tag := 7 }
    reads := fun _ => Except.ok [0x79]
    nw := 0
    nr := 0
    log := [] }

/-- SPI receive script: the command transfer acks, every later transfer
observes the busy status 0xFF at the ack position. -/
def busyPolls : Nat → List Nat :=
  fun i => if i = 0 then [0x00, 0x00, 0x00, 0x00, 0x79, 0x00] else [0x00, 0xFF, 0x00]

/-- Serial read script: the command ACK arrives, every later read times
out. -/
def uartEraseReads : Nat → Except IoError (List Nat) :=
  fun i => if i = 0 then Except.ok [0x79]
           else Except.error { kind := IoErrorKind.timedOut, tag := i }

/-! ## Claim theorems: concrete evaluations -/

/-- C1: against a link that acknowledges every frame, UART `write_memory`
at address 0 with payload `[1, 2, 3]` sends `[0x04, 0, 0, 0, 0, 0, 0x04]`
as its data frame — the shadowed 5-byte address frame with its length
byte and checksum — instead of the frame `[0x02, 1, 2, 3, 0x02]` built
from the payload that the specification describes.  The payload is never
transmitted. -/
theorem C1_uart_write_memory_sends_address_frame_not_payload :
    (Serial.write_memory 0 [1, 2, 3] allAckLink).1 = Except.ok () ∧
    (Serial.write_memory 0 [1, 2, 3] allAckLink).2.log =
      [LinkOp.write [0x31, 0xCE], LinkOp.readExact 1,
       LinkOp.write [0x00, 0x00, 0x00, 0x00, 0x00], LinkOp.readExact 1,
       LinkOp.write [0x04, 0x00, 0x00, 0x00, 0x00, 0x00, 0x04], LinkOp.readExact 1] ∧
    specWriteDataFrame [1, 2, 3] = [0x02, 0x01, 0x02, 0x03, 0x02] ∧
    ([0x04, 0x00, 0x00, 0x00, 0x00, 0x00, 0x04] : List Nat) ≠
      [0x02, 0x01, 0x02, 0x03, 0x02] :=
  ⟨rfl, rfl, rfl, by decide⟩

/-- C2: for length byte 1 and the well-formed response
`[version, opcode, ACK]`, UART `supported_functions` returns an empty
supported-functions list: the slice `response[1..n-2]` keeps only the
first `L - 1` opcode bytes, dropping the last one, so the single reported
opcode (Get) is lost. -/
theorem C2_supported_functions_drops_last_opcode :
    (Serial.supported_functions 4 c2Link).1 =
      Outcome.ok { version := 0x10, supported_functions := [] } ∧
    ([] : List Functions) ≠ [Functions.Get] :=
  ⟨rfl, by decide⟩

/-- C3 counterexample: when the device sends length byte 0 followed by a
2-byte response, `get_id` reaches the out-of-bounds indexing
`response[2]` and panics — it neither returns a chip id nor fails with
`ProtocolError`, so the panic branch is reachable. -/
theorem C3_get_id_zero_length_response_panics :
    (Serial.get_id 4 (getIdLink 0 [0xAA, 0xBB])).1 = Outcome.panicked ∧
    (Outcome.panicked : Outcome BootloaderChipId) ≠
      Outcome.err DfuLoaderError.ProtocolError :=
  ⟨rfl, by decide⟩

/-- C4: on both engines, `write_memory` with an empty payload or a payload
longer than 256 bytes fails with `ProtocolError` and returns the link
unchanged: no write, read or transfer is issued. -/
theorem C4_write_memory_invalid_length_no_io (a : Nat) (p : List Nat)
    (l : Link) (s : SpiLink) (h : p.length = 0 ∨ p.length > 256) :
    Serial.write_memory a p l = (Except.error DfuLoaderError.ProtocolError, l) ∧
    Spi.write_memory a p s = (Except.error DfuLoaderError.ProtocolError, s) := by
  have hc : p.length > 256 ∨ p.length = 0 := h.symm
  constructor
  · rw [Serial.write_memory, if_pos hc]
  · rw [Spi.write_memory, if_pos hc]

/-- Witness for C4 at the empty payload. -/
theorem C4_write_memory_invalid_length_no_io_witness :
    Serial.write_memory 0 [] allAckLink =
      (Except.error DfuLoaderError.ProtocolError, allAckLink) ∧
    Spi.write_memory 0 [] allAckSpiLink =
      (Except.error DfuLoaderError.ProtocolError, allAckSpiLink) :=
  C4_write_memory_invalid_length_no_io 0 [] allAckLink allAckSpiLink (Or.inl rfl)

/-- C5 counterexample: against a link whose every ack-frame poll observes
a clean ACK, SPI `write_unprotect` succeeds but issues 2 ack-frame polls,
not 1: a clean ACK in the first loop only breaks out of that loop, and the
second loop then issues a further poll. -/
theorem C5_write_unprotect_polls_again_after_first_ack :
    (Spi.write_unprotect allAckSpiLink).1 = Except.ok () ∧
    countAckPolls (Spi.write_unprotect allAckSpiLink).2.log = 2 ∧ (2 : Nat) ≠ 1 :=
  ⟨rfl, rfl, by decide⟩

/-- C7: against a link that acknowledges every frame and delivers the two
bytes `[0xAA, 0xBB]` to the final read, SPI `read_memory` with size 1
returns both bytes: `read_block` returns the whole `size + 1`-byte buffer,
so the leading dummy byte 0xAA is not discarded and the result has
`size + 1` bytes instead of `size`. -/
theorem C7_spi_read_memory_returns_dummy_byte :
    (Spi.read_memory 0x08000000 1 c7Link).1 = Except.ok [0xAA, 0xBB] ∧
    ([0xAA, 0xBB] : List Nat).length = 2 ∧
    ([0xAA, 0xBB] : List Nat) ≠ [0xBB] :=
  ⟨rfl, rfl, by decide⟩

/-- C9 counterexample: when the write of the 2-byte command frame fails
with an I/O error, the UART `go` operation surfaces `ProtocolError`, not
`IoFailure` carrying the original error: `send_command` translates the
write failure. -/
theorem C9_command_frame_write_failure_is_protocol_error :
    (Serial.go 0 failWriteLink).1 = Except.error DfuLoaderError.ProtocolError ∧
    DfuLoaderError.ProtocolError ≠
      DfuLoaderError.IOError { kind := IoErrorKind.other, tag := 7 } :=
  ⟨rfl, by decide⟩

/-- C10 counterexample: with length byte 8 (target 10) and 100-byte
fragments, the running total skips past the target (100, 200, ...) without
ever equalling it, yet the `supported_functions` loop does not run
forever: the third fragment fails the `response[n..n+v]` bounds check of
the fixed 255-byte buffer and the loop terminates by panicking. -/
theorem C10_supported_functions_loop_panics_past_buffer :
    (Serial.supported_functions 5 c10Link).1 = Outcome.panicked ∧
    (Outcome.panicked : Outcome BootLoaderInfo) ≠ Outcome.diverged :=
  ⟨rfl, by decide⟩

end Stm32

namespace Stm32

theorem getD_pad_take (l : List Nat) (n i : Nat) (h : i < n) :
    (l.take n ++ List.replicate (n - l.length) 0).getD i 0 = l.getD i 0 := by
  rcases Nat.lt_or_ge i l.length with hl | hl
  · rw [List.getD_append _ _ _ _ (by simp; omega)]
    simp [List.getD_eq_getElem?_getD, List.getElem?_take, h]
  · rw [List.getD_eq_getElem?_getD, List.getD_eq_getElem?_getD]
    rw [List.getElem?_append_right (by simp; omega)]
    simp [List.getElem?_replicate, List.length_take]
    rw [List.getElem?_eq_none (by omega)]
    by_cases h3 : i - min n l.length < n - l.length
    · simp [h3]
    · simp [h3]

theorem pad_getElem_getD (l : List Nat) (n i : Nat) (h : i < n) :
    (l.take n ++ List.replicate (n - l.length) 0)[i]?.getD 0 = l[i]?.getD 0 := by
  have h2 := getD_pad_take l n i h
  simpa [List.getD_eq_getElem?_getD] using h2

theorem ack_frame_at (f : Nat → List Nat) (t w : Nat) (lg : List SpiOp) :
    Spi.ack_frame (spiStateAt f t w lg) =
      (if (f t).getD 1 0 = 0x79 then Except.ok ()
       else Except.error (DfuLoaderError.CommandFailed ((f t).getD 1 0)),
       spiStateAt f (t + 1) w (lg ++ [SpiOp.transfer [0x00, 0x00, 0x79]])) := by
  by_cases hb : (f t).getD 1 0 = 0x79 <;>
    simp_all [Spi.ack_frame, SpiLink.transfer, spiStateAt, pad_getElem_getD,
      List.getD_eq_getElem?_getD]

theorem spi_send_command_at (f : Nat → List Nat) (t w : Nat) (lg : List SpiOp) (c : Nat) :
    Spi.send_command (spiStateAt f t w lg) c =
      (if (f t).getD 4 0 = 0x79 then Except.ok ()
       else Except.error DfuLoaderError.ProtocolError,
       spiStateAt f (t + 1) w (lg ++ [SpiOp.transfer [0x5A, c, c ^^^ 0xFF, 0x00, 0x00, 0x79]])) := by
  by_cases hb : (f t).getD 4 0 = 0x79 <;>
    simp_all [Spi.send_command, SpiLink.transfer, spiStateAt, pad_getElem_getD,
      List.getD_eq_getElem?_getD]

theorem spi_write_at (f : Nat → List Nat) (t w : Nat) (lg : List SpiOp) (d : List Nat) :
    SpiLink.write (spiStateAt f t w lg) d =
      (none, spiStateAt f t (w + 1) (lg ++ [SpiOp.write d])) := by
  simp [SpiLink.write, spiStateAt]

theorem wu_loop1_skip (f : Nat → List Nat) :
    ∀ k j t w lg, (∀ i, t ≤ i → i < t + k → (f i).getD 1 0 = 0xFF) →
    Spi.write_unprotect_loop1 (k + j) (spiStateAt f t w lg) =
      Spi.write_unprotect_loop1 j (spiStateAt f (t + k) w (lg ++ ackOps k)) := by
  intro k
  induction k with
  | zero =>
    intro j t w lg _
    simp [ackOps]
  | succ k ih =>
    intro j t w lg h
    have h1 : (f t).getD 1 0 = 0xFF := h t le_rfl (by omega)
    have e1 : k + 1 + j = (k + j) + 1 := by omega
    rw [e1, Spi.write_unprotect_loop1, ack_frame_at, h1]
    simp only [show (0xFF : Nat) = 0x79 ↔ False by simp, if_false, reduceIte]
    rw [ih j (t + 1) w (lg ++ [SpiOp.transfer [0x00, 0x00, 0x79]])
        (fun i hi1 hi2 => h i (by omega) (by omega))]
    have e2 : t + 1 + k = t + (k + 1) := by omega
    rw [e2]
    simp [ackOps, List.append_assoc]

theorem wu_loop1_ack (f : Nat → List Nat) (j t w : Nat) (lg : List SpiOp)
    (h : (f t).getD 1 0 = 0x79) :
    Spi.write_unprotect_loop1 (j + 1) (spiStateAt f t w lg) =
      (none, spiStateAt f (t + 1) w (lg ++ [SpiOp.transfer [0x00, 0x00, 0x79]])) := by
  rw [Spi.write_unprotect_loop1, ack_frame_at, h]
  simp

theorem wu_loop2_skip (f : Nat → List Nat) :
    ∀ k j t w lg, (∀ i, t ≤ i → i < t + k → (f i).getD 1 0 = 0xFF ∨ (f i).getD 1 0 = 0xA5) →
    Spi.write_unprotect_loop2 (k + j) (spiStateAt f t w lg) =
      Spi.write_unprotect_loop2 j (spiStateAt f (t + k) w (lg ++ ackOps k)) := by
  intro k
  induction k with
  | zero =>
    intro j t w lg _
    simp [ackOps]
  | succ k ih =>
    intro j t w lg h
    have h1 := h t le_rfl (by omega)
    have e1 : k + 1 + j = (k + j) + 1 := by omega
    have hne : ¬((f t).getD 1 0 = 0x79) := by rcases h1 with h1 | h1 <;> rw [h1] <;> decide
    rw [e1, Spi.write_unprotect_loop2, ack_frame_at, if_neg hne]
    simp only [h1, if_pos]
    rw [ih j (t + 1) w (lg ++ [SpiOp.transfer [0x00, 0x00, 0x79]])
        (fun i hi1 hi2 => h i (by omega) (by omega))]
    have e2 : t + 1 + k = t + (k + 1) := by omega
    rw [e2]
    simp [ackOps, List.append_assoc]

theorem wu_loop2_ack (f : Nat → List Nat) (j t w : Nat) (lg : List SpiOp)
    (h : (f t).getD 1 0 = 0x79) :
    Spi.write_unprotect_loop2 (j + 1) (spiStateAt f t w lg) =
      (Except.ok (), spiStateAt f (t + 1) w (lg ++ [SpiOp.transfer [0x00, 0x00, 0x79]])) := by
  rw [Spi.write_unprotect_loop2, ack_frame_at, h]
  simp

theorem wu_loop2_bad (f : Nat → List Nat) (j t w : Nat) (lg : List SpiOp) (s : Nat)
    (h : (f t).getD 1 0 = s) (h79 : s ≠ 0x79) (hff : s ≠ 0xFF) (ha5 : s ≠ 0xA5) :
    Spi.write_unprotect_loop2 (j + 1) (spiStateAt f t w lg) =
      (Except.error (DfuLoaderError.CommandFailed s),
       spiStateAt f (t + 1) w (lg ++ [SpiOp.transfer [0x00, 0x00, 0x79]])) := by
  rw [Spi.write_unprotect_loop2, ack_frame_at, h, if_neg h79]
  simp [hff, ha5]

theorem spi_erase_loop_skip (f : Nat → List Nat) :
    ∀ k j t w lg, (∀ i, t ≤ i → i < t + k → (f i).getD 1 0 = 0xFF ∨ (f i).getD 1 0 = 0xA5) →
    Spi.erase_all_loop (k + j) (spiStateAt f t w lg) =
      Spi.erase_all_loop j (spiStateAt f (t + k) w (lg ++ ackOps k)) := by
  intro k
  induction k with
  | zero =>
    intro j t w lg _
    simp [ackOps]
  | succ k ih =>
    intro j t w lg h
    have h1 := h t le_rfl (by omega)
    have e1 : k + 1 + j = (k + j) + 1 := by omega
    have hne : ¬((f t).getD 1 0 = 0x79) := by rcases h1 with h1 | h1 <;> rw [h1] <;> decide
    rw [e1, Spi.erase_all_loop, ack_frame_at, if_neg hne]
    simp only [h1, if_pos]
    rw [ih j (t + 1) w (lg ++ [SpiOp.transfer [0x00, 0x00, 0x79]])
        (fun i hi1 hi2 => h i (by omega) (by omega))]
    have e2 : t + 1 + k = t + (k + 1) := by omega
    rw [e2]
    simp [ackOps, List.append_assoc]

theorem spi_erase_loop_bad (f : Nat → List Nat) (j t w : Nat) (lg : List SpiOp) (s : Nat)
    (h : (f t).getD 1 0 = s) (h79 : s ≠ 0x79) (hff : s ≠ 0xFF) (ha5 : s ≠ 0xA5) :
    Spi.erase_all_loop (j + 1) (spiStateAt f t w lg) =
      (Except.error (DfuLoaderError.CommandFailed s),
       spiStateAt f (t + 1) w (lg ++ [SpiOp.transfer [0x00, 0x00, 0x79]])) := by
  rw [Spi.erase_all_loop, ack_frame_at, h, if_neg h79]
  simp [hff, ha5]

theorem serial_writeAll_at (g : Nat → Except IoError (List Nat)) (w r : Nat)
    (lg : List LinkOp) (d : List Nat) :
    Link.writeAll (serialScriptAt g w r lg) d =
      (none, serialScriptAt g (w + 1) r (lg ++ [LinkOp.write d])) := by
  simp [Link.writeAll, serialScriptAt]

theorem serial_read_ack_ok (g : Nat → Except IoError (List Nat)) (w r : Nat)
    (lg : List LinkOp) (hg : g r = Except.ok [0x79]) :
    Serial.read_ack (serialScriptAt g w r lg) =
      (Except.ok (), serialScriptAt g w (r + 1) (lg ++ [LinkOp.readExact 1])) := by
  simp [Serial.read_ack, Link.readExact, serialScriptAt, hg]

theorem serial_read_ack_err (g : Nat → Except IoError (List Nat)) (w r : Nat)
    (lg : List LinkOp) (e : IoError) (hg : g r = Except.error e) :
    Serial.read_ack (serialScriptAt g w r lg) =
      (Except.error (DfuLoaderError.IOError e),
       serialScriptAt g w (r + 1) (lg ++ [LinkOp.readExact 1])) := by
  simp [Serial.read_ack, Link.readExact, serialScriptAt, hg]

theorem serial_send_command_ok (g : Nat → Except IoError (List Nat)) (w r : Nat)
    (lg : List LinkOp) (c : Nat) (hg : g r = Except.ok [0x79]) :
    Serial.send_command (serialScriptAt g w r lg) c =
      (Except.ok (), serialScriptAt g (w + 1) (r + 1)
        (lg ++ [LinkOp.write [c, c ^^^ 0xFF], LinkOp.readExact 1])) := by
  simp [Serial.send_command, Link.writeAll, serialScriptAt, Serial.read_ack,
    Link.readExact, hg]

theorem uart_erase_loop_timeout (g : Nat → Except IoError (List Nat)) :
    ∀ k w r lg,
    (∀ i, r ≤ i → i < r + k →
      ∃ u, g i = Except.error { kind := IoErrorKind.timedOut, tag := u }) →
    Serial.erase_all_loop k (serialScriptAt g w r lg) =
      (Except.error DfuLoaderError.Timeout,
       serialScriptAt g w (r + k) (lg ++ readAckOps k)) := by
  intro k
  induction k with
  | zero => intro w r lg _; simp [Serial.erase_all_loop, readAckOps]
  | succ k ih =>
    intro w r lg h
    obtain ⟨u, hu⟩ := h r le_rfl (by omega)
    rw [Serial.erase_all_loop,
        serial_read_ack_err g w r lg { kind := IoErrorKind.timedOut, tag := u } hu]
    simp only [reduceCtorEq]
    rw [ih w (r + 1) (lg ++ [LinkOp.readExact 1]) (fun i h1 h2 => h i (by omega) (by omega))]
    have e2 : r + 1 + k = r + (k + 1) := by omega
    rw [e2]
    simp [readAckOps, List.replicate_succ, List.append_assoc]

theorem init_loop_timeout (g : Nat → Except IoError (List Nat)) :
    ∀ k w r lg,
    (∀ i, r ≤ i → i < r + k →
      ∃ u, g i = Except.error { kind := IoErrorKind.timedOut, tag := u }) →
    Serial.initialize_loop k (serialScriptAt g w r lg) =
      (Except.error DfuLoaderError.Timeout,
       serialScriptAt g (w + k) (r + k) (lg ++ initOps k)) := by
  intro k
  induction k with
  | zero => intro w r lg _; simp [Serial.initialize_loop, initOps]
  | succ k ih =>
    intro w r lg h
    obtain ⟨u, hu⟩ := h r le_rfl (by omega)
    rw [Serial.initialize_loop]
    simp only [serial_writeAll_at]
    have e : Link.readExact (serialScriptAt g (w + 1) r (lg ++ [LinkOp.write [0x7F]])) 1 =
        (Except.error { kind := IoErrorKind.timedOut, tag := u },
         serialScriptAt g (w + 1) (r + 1)
           (lg ++ [LinkOp.write [0x7F], LinkOp.readExact 1])) := by
      simp [Link.readExact, serialScriptAt, hu]
    rw [e]
    simp only [reduceIte]
    rw [ih (w + 1) (r + 1) (lg ++ [LinkOp.write [0x7F], LinkOp.readExact 1])
        (fun i h1 h2 => h i (by omega) (by omega))]
    have e2 : w + 1 + k = w + (k + 1) := by omega
    have e3 : r + 1 + k = r + (k + 1) := by omega
    rw [e2, e3]
    simp [initOps, List.append_assoc]

theorem init_loop_stops (g : Nat → Except IoError (List Nat)) (b : Nat)
    (hb : b = 0x79 ∨ b = 0x1F) :
    ∀ k m w r lg, k < m →
    (∀ i, r ≤ i → i < r + k →
      ∃ u, g i = Except.error { kind := IoErrorKind.timedOut, tag := u }) →
    g (r + k) = Except.ok [b] →
    Serial.initialize_loop m (serialScriptAt g w r lg) =
      (Except.ok (),
       serialScriptAt g (w + k + 1) (r + k + 1)
         (lg ++ initOps k ++ [LinkOp.write [0x7F], LinkOp.readExact 1])) := by
  intro k
  induction k with
  | zero =>
    intro m w r lg hm h hk
    obtain ⟨m', rfl⟩ : ∃ m', m = m' + 1 := ⟨m - 1, by omega⟩
    simp only [Nat.add_zero] at hk
    rw [Serial.initialize_loop]
    simp only [serial_writeAll_at]
    have e : Link.readExact (serialScriptAt g (w + 1) r (lg ++ [LinkOp.write [0x7F]])) 1 =
        (Except.ok [b], serialScriptAt g (w + 1) (r + 1)
           (lg ++ [LinkOp.write [0x7F], LinkOp.readExact 1])) := by
      simp [Link.readExact, serialScriptAt, hk]
    rw [e]
    rcases hb with hb | hb <;> subst hb <;> simp [Serial.ACK, Serial.NAK, initOps]
  | succ k ih =>
    intro m w r lg hm h hk
    obtain ⟨m', rfl⟩ : ∃ m', m = m' + 1 := ⟨m - 1, by omega⟩
    obtain ⟨u, hu⟩ := h r le_rfl (by omega)
    rw [Serial.initialize_loop]
    simp only [serial_writeAll_at]
    have e : Link.readExact (serialScriptAt g (w + 1) r (lg ++ [LinkOp.write [0x7F]])) 1 =
        (Except.error { kind := IoErrorKind.timedOut, tag := u },
         serialScriptAt g (w + 1) (r + 1)
           (lg ++ [LinkOp.write [0x7F], LinkOp.readExact 1])) := by
      simp [Link.readExact, serialScriptAt, hu]
    rw [e]
    simp only [reduceIte]
    rw [ih m' (w + 1) (r + 1) (lg ++ [LinkOp.write [0x7F], LinkOp.readExact 1])
        (by omega) (fun i h1 h2 => h i (by omega) (by omega))
        (by rw [show r + 1 + k = r + (k + 1) by omega]; exact hk)]
    have e2 : w + 1 + k + 1 = w + (k + 1) + 1 := by omega
    have e3 : r + 1 + k + 1 = r + (k + 1) + 1 := by omega
    rw [e2, e3]
    simp [initOps, List.append_assoc]

theorem init_loop_fails (g : Nat → Except IoError (List Nat)) (e : IoError)
    (he : e.kind ≠ IoErrorKind.timedOut) :
    ∀ k m w r lg, k < m →
    (∀ i, r ≤ i → i < r + k →
      ∃ u, g i = Except.error { kind := IoErrorKind.timedOut, tag := u }) →
    g (r + k) = Except.error e →
    Serial.initialize_loop m (serialScriptAt g w r lg) =
      (Except.error (DfuLoaderError.IOError e),
       serialScriptAt g (w + k + 1) (r + k + 1)
         (lg ++ initOps k ++ [LinkOp.write [0x7F], LinkOp.readExact 1])) := by
  intro k
  induction k with
  | zero =>
    intro m w r lg hm h hk
    obtain ⟨m', rfl⟩ : ∃ m', m = m' + 1 := ⟨m - 1, by omega⟩
    simp only [Nat.add_zero] at hk
    rw [Serial.initialize_loop]
    simp only [serial_writeAll_at]
    have eq1 : Link.readExact (serialScriptAt g (w + 1) r (lg ++ [LinkOp.write [0x7F]])) 1 =
        (Except.error e, serialScriptAt g (w + 1) (r + 1)
           (lg ++ [LinkOp.write [0x7F], LinkOp.readExact 1])) := by
      simp [Link.readExact, serialScriptAt, hk]
    rw [eq1]
    simp [he, initOps]
  | succ k ih =>
    intro m w r lg hm h hk
    obtain ⟨m', rfl⟩ : ∃ m', m = m' + 1 := ⟨m - 1, by omega⟩
    obtain ⟨u, hu⟩ := h r le_rfl (by omega)
    rw [Serial.initialize_loop]
    simp only [serial_writeAll_at]
    have eq1 : Link.readExact (serialScriptAt g (w + 1) r (lg ++ [LinkOp.write [0x7F]])) 1 =
        (Except.error { kind := IoErrorKind.timedOut, tag := u },
         serialScriptAt g (w + 1) (r + 1)
           (lg ++ [LinkOp.write [0x7F], LinkOp.readExact 1])) := by
      simp [Link.readExact, serialScriptAt, hu]
    rw [eq1]
    simp only [reduceIte]
    rw [ih m' (w + 1) (r + 1) (lg ++ [LinkOp.write [0x7F], LinkOp.readExact 1])
        (by omega) (fun i h1 h2 => h i (by omega) (by omega))
        (by rw [show r + 1 + k = r + (k + 1) by omega]; exact hk)]
    have e2 : w + 1 + k + 1 = w + (k + 1) + 1 := by omega
    have e3 : r + 1 + k + 1 = r + (k + 1) + 1 := by omega
    rw [e2, e3]
    simp [initOps, List.append_assoc]

theorem countAckPolls_append (a b : List SpiOp) :
    countAckPolls (a ++ b) = countAckPolls a + countAckPolls b := by
  simp [countAckPolls, List.filter_append]

theorem countAckPolls_ackOps (k : Nat) : countAckPolls (ackOps k) = k := by
  induction k with
  | zero => rfl
  | succ k ih => simp [ackOps, countAckPolls, List.filter] at ih ⊢; omega

end Stm32

namespace Stm32

theorem fragSum_nil (i k : Nat) : fragSum (fun _ => []) i k = 0 := by
  induction k generalizing i with
  | zero => rfl
  | succ k ih => simp [fragSum, ih]

theorem read_bytes_loop_diverges (f : Nat → List Nat) (size : Nat)
    (hf : ∀ i, (f i).length ≤ 255) :
    ∀ fuel data n w r lg, (∀ k, 1 ≤ k → n + fragSum f r k ≠ size) →
    (Serial.read_bytes_loopF size fuel data n (serialFragLink f w r lg)).1 =
      Outcome.diverged := by
  intro fuel
  induction fuel with
  | zero => intro data n w r lg _; rfl
  | succ fuel ih =>
    intro data n w r lg h
    have hne : ¬(n + (f r).length = size) := by
      have := h 1 le_rfl
      simp [fragSum] at this
      omega
    have htk : (f r).take 255 = f r := List.take_of_length_le (hf r)
    rw [Serial.read_bytes_loopF]
    simp only [Link.readUpTo255, serialFragLink, serialScriptAt, htk]
    rw [if_neg hne]
    have := ih (data ++ f r) (n + (f r).length) w (r + 1)
      (lg ++ [LinkOp.read])
      (fun k hk => by
        have h2 := h (k + 1) (by omega)
        simp only [fragSum] at h2 ⊢
        omega)
    simpa [serialFragLink, serialScriptAt] using this

theorem sf_loop_diverges (f : Nat → List Nat) (target : Nat)
    (hf : ∀ i, (f i).length ≤ 255) :
    ∀ fuel resp n w r lg, (∀ k, 1 ≤ k → n + fragSum f r k ≠ target) →
    (∀ k, n + fragSum f r k ≤ 255) →
    (Serial.sf_loopF target fuel resp n (serialFragLink f w r lg)).1 =
      Outcome.diverged := by
  intro fuel
  induction fuel with
  | zero => intro resp n w r lg _ _; rfl
  | succ fuel ih =>
    intro resp n w r lg h hbnd
    have hne : ¬(n + (f r).length = target) := by
      have := h 1 le_rfl
      simp [fragSum] at this
      omega
    have hle : n + (f r).length ≤ 255 := by
      have := hbnd 1
      simp [fragSum] at this
      omega
    have htk : (f r).take 255 = f r := List.take_of_length_le (hf r)
    rw [Serial.sf_loopF]
    simp only [Link.readUpTo255, serialFragLink, serialScriptAt, htk]
    rw [if_pos hle, if_neg hne]
    have := ih (Serial.setSlice resp n (f r)) (n + (f r).length) w (r + 1)
      (lg ++ [LinkOp.read])
      (fun k hk => by
        have h2 := h (k + 1) (by omega)
        simp only [fragSum] at h2 ⊢
        omega)
      (fun k => by
        have h2 := hbnd (k + 1)
        simp only [fragSum] at h2 ⊢
        omega)
    simpa [serialFragLink, serialScriptAt] using this

theorem get?_two_eq_getD (l : List Nat) (h : 2 < l.length) :
    l.get? 2 = some (l.getD 2 0) := by
  rw [List.getD_eq_getElem?_getD, List.get?_eq_getElem?, List.getElem?_eq_getElem h]
  simp

/-- C3 amended: for every length byte `L` with `1 ≤ L ≤ 253` and a device
response of `L + 2` bytes delivered in one fragment, UART `get_id` returns
the big-endian chip id when `L = 1` and the third byte is ACK, and fails
with `ProtocolError` in every other case.  (A length byte of 0 panics
instead — see the counterexample.) -/
theorem C3_get_id_nonzero_length_ok_or_protocol_error (L : Nat) (resp : List Nat)
    (h1 : 1 ≤ L) (h2 : L ≤ 253) (h3 : resp.length = L + 2) :
    (Serial.get_id 1 (getIdLink L resp)).1 =
      if L = 1 ∧ resp.getD 2 0 = 0x79 then
        Outcome.ok { chipid := ((resp.getD 0 0) <<< 8) ||| resp.getD 1 0 }
      else Outcome.err DfuLoaderError.ProtocolError := by
  have hsz : (L + 2) % 256 = L + 2 := Nat.mod_eq_of_lt (by omega)
  have htk : resp.take 255 = resp := List.take_of_length_le (by omega)
  have hg2 : resp[2]? = some resp[2] := List.getElem?_eq_getElem (by omega)
  by_cases hL : L = 1 <;> by_cases hb : resp[2] = 121 <;>
    simp [Serial.get_id, Serial.send_command, Link.writeAll, Serial.read_ack,
      Link.readExact, Serial.read_bytesF, Serial.read_bytes_loopF, Link.readUpTo255,
      bindEO, bindO, getIdLink, serialScriptAt, Serial.ACK, hsz, htk, h3, hg2, hL, hb]

/-- Witness for the amended C3 at length byte 1 and response
`[0x04, 0x12, ACK]`. -/
theorem C3_get_id_amended_witness :
    (Serial.get_id 1 (getIdLink 1 [4, 18, 121])).1 = Outcome.ok { chipid := 1042 } := by
  have h := C3_get_id_nonzero_length_ok_or_protocol_error 1 [4, 18, 121]
    (by decide) (by decide) rfl
  simpa using h

/-- C5 amended: with all polls observing busy (0xFF), SPI
`write_unprotect` fails with `Timeout` after the full 30-poll budget; with
every poll observing a clean ACK it succeeds after 2 polls (the
first-loop ACK only breaks that loop, and the second loop's first poll
decides); and if the poll after a first-loop ACK observes a non-tolerated
status the operation fails despite the earlier clean ACK. -/
theorem C5_write_unprotect_polling_budget (f : Nat → List Nat)
    (hcmd : (f 0).getD 4 0 = 0x79) :
    ((∀ i, 1 ≤ i → i ≤ 30 → (f i).getD 1 0 = 0xFF) →
      (Spi.write_unprotect (spiStateAt f 0 0 [])).1 =
        Except.error DfuLoaderError.Timeout ∧
      countAckPolls (Spi.write_unprotect (spiStateAt f 0 0 [])).2.log = 30) ∧
    ((∀ i, 1 ≤ i → (f i).getD 1 0 = 0x79) →
      (Spi.write_unprotect (spiStateAt f 0 0 [])).1 = Except.ok () ∧
      countAckPolls (Spi.write_unprotect (spiStateAt f 0 0 [])).2.log = 2) ∧
    (∀ s, (f 1).getD 1 0 = 0x79 → (f 2).getD 1 0 = s →
      s ≠ 0x79 → s ≠ 0xFF → s ≠ 0xA5 →
      (Spi.write_unprotect (spiStateAt f 0 0 [])).1 =
        Except.error (DfuLoaderError.CommandFailed s) ∧
      countAckPolls (Spi.write_unprotect (spiStateAt f 0 0 [])).2.log = 2) := by
  have ecmd := spi_send_command_at f 0 0 [] 0x73
  rw [hcmd, if_pos rfl] at ecmd
  simp only [Nat.reduceAdd, List.nil_append] at ecmd
  refine ⟨?_, ?_, ?_⟩
  · intro hff
    have e1 := wu_loop1_skip f 10 0 1 0
      [SpiOp.transfer [0x5A, 0x73, 0x73 ^^^ 0xFF, 0x00, 0x00, 0x79]]
      (fun i hi1 hi2 => hff i (by omega) (by omega))
    have e2 := wu_loop2_skip f 20 0 (1 + 10) 0
      ([SpiOp.transfer [0x5A, 0x73, 0x73 ^^^ 0xFF, 0x00, 0x00, 0x79]] ++ ackOps 10)
      (fun i hi1 hi2 => Or.inl (hff i (by omega) (by omega)))
    simp only [Nat.add_zero] at e1 e2
    have main : Spi.write_unprotect (spiStateAt f 0 0 []) =
        (Except.error DfuLoaderError.Timeout,
         spiStateAt f (1 + 10 + 20) 0
           (([SpiOp.transfer [0x5A, 0x73, 0x73 ^^^ 0xFF, 0x00, 0x00, 0x79]] ++
             ackOps 10) ++ ackOps 20)) := by
      simp only [Spi.write_unprotect, ecmd, bindE]
      rw [e1]
      simp only [Spi.write_unprotect_loop1]
      rw [e2]
      simp only [Spi.write_unprotect_loop2]
    rw [main]
    refine ⟨rfl, ?_⟩
    simp only [spiStateAt, countAckPolls_append, countAckPolls_ackOps]
    decide
  · intro hack
    have e1 := wu_loop1_ack f 9 1 0
      [SpiOp.transfer [0x5A, 0x73, 0x73 ^^^ 0xFF, 0x00, 0x00, 0x79]]
      (hack 1 (by omega))
    have e2 := wu_loop2_ack f 19 2 0
      ([SpiOp.transfer [0x5A, 0x73, 0x73 ^^^ 0xFF, 0x00, 0x00, 0x79]] ++
        [SpiOp.transfer [0x00, 0x00, 0x79]])
      (hack 2 (by omega))
    simp only [Nat.reduceAdd] at e1 e2
    have main : Spi.write_unprotect (spiStateAt f 0 0 []) =
        (Except.ok (),
         spiStateAt f 3 0
           (([SpiOp.transfer [0x5A, 0x73, 0x73 ^^^ 0xFF, 0x00, 0x00, 0x79]] ++
             [SpiOp.transfer [0x00, 0x00, 0x79]]) ++
            [SpiOp.transfer [0x00, 0x00, 0x79]])) := by
      simp only [Spi.write_unprotect, ecmd, bindE]
      simp only [e1]
      rw [e2]
    rw [main]
    refine ⟨rfl, ?_⟩
    show countAckPolls
        (([SpiOp.transfer [0x5A, 0x73, 0x73 ^^^ 0xFF, 0x00, 0x00, 0x79]] ++
          [SpiOp.transfer [0x00, 0x00, 0x79]]) ++
         [SpiOp.transfer [0x00, 0x00, 0x79]]) = 2
    decide
  · intro s h1 h2 h79 hff ha5
    have e1 := wu_loop1_ack f 9 1 0
      [SpiOp.transfer [0x5A, 0x73, 0x73 ^^^ 0xFF, 0x00, 0x00, 0x79]] h1
    have e2 := wu_loop2_bad f 19 2 0
      ([SpiOp.transfer [0x5A, 0x73, 0x73 ^^^ 0xFF, 0x00, 0x00, 0x79]] ++
        [SpiOp.transfer [0x00, 0x00, 0x79]]) s h2 h79 hff ha5
    simp only [Nat.reduceAdd] at e1 e2
    have main : Spi.write_unprotect (spiStateAt f 0 0 []) =
        (Except.error (DfuLoaderError.CommandFailed s),
         spiStateAt f 3 0
           (([SpiOp.transfer [0x5A, 0x73, 0x73 ^^^ 0xFF, 0x00, 0x00, 0x79]] ++
             [SpiOp.transfer [0x00, 0x00, 0x79]]) ++
            [SpiOp.transfer [0x00, 0x00, 0x79]])) := by
      simp only [Spi.write_unprotect, ecmd, bindE]
      simp only [e1]
      rw [e2]
    rw [main]
    refine ⟨rfl, ?_⟩
    show countAckPolls
        (([SpiOp.transfer [0x5A, 0x73, 0x73 ^^^ 0xFF, 0x00, 0x00, 0x79]] ++
          [SpiOp.transfer [0x00, 0x00, 0x79]]) ++
         [SpiOp.transfer [0x00, 0x00, 0x79]]) = 2
    decide

/-- Witness for the amended C5: the busy-poll script times out after 30
polls. -/
theorem C5_write_unprotect_polling_budget_witness :
    (Spi.write_unprotect (spiStateAt busyPolls 0 0 [])).1 =
      Except.error DfuLoaderError.Timeout ∧
    countAckPolls (Spi.write_unprotect (spiStateAt busyPolls 0 0 [])).2.log = 30 :=
  (C5_write_unprotect_polling_budget busyPolls rfl).1
    (fun i hi1 _ => by
      have : ¬(i = 0) := by omega
      simp [busyPolls, this])

/-- C6: UART `initialize` succeeds as soon as a sync attempt reads ACK or
NAK; with every read timing out it fails with `Timeout` after exactly 10
attempts (10 sync-byte writes, 10 reads); a non-timeout read failure is
returned immediately as `IOError`. -/
theorem C6_uart_initialize_retry_policy (g : Nat → Except IoError (List Nat)) :
    ((∀ i, i < 10 → ∃ u, g i = Except.error { kind := IoErrorKind.timedOut, tag := u }) →
      Serial.initializeConn (serialScriptAt g 0 0 []) =
        (Except.error DfuLoaderError.Timeout, serialScriptAt g 10 10 (initOps 10))) ∧
    (∀ k b, k < 10 →
      (∀ i, i < k → ∃ u, g i = Except.error { kind := IoErrorKind.timedOut, tag := u }) →
      g k = Except.ok [b] → (b = 0x79 ∨ b = 0x1F) →
      Serial.initializeConn (serialScriptAt g 0 0 []) =
        (Except.ok (), serialScriptAt g (k + 1) (k + 1)
          (initOps k ++ [LinkOp.write [0x7F], LinkOp.readExact 1]))) ∧
    (∀ k e, k < 10 →
      (∀ i, i < k → ∃ u, g i = Except.error { kind := IoErrorKind.timedOut, tag := u }) →
      g k = Except.error e → e.kind ≠ IoErrorKind.timedOut →
      Serial.initializeConn (serialScriptAt g 0 0 []) =
        (Except.error (DfuLoaderError.IOError e), serialScriptAt g (k + 1) (k + 1)
          (initOps k ++ [LinkOp.write [0x7F], LinkOp.readExact 1]))) := by
  refine ⟨?_, ?_, ?_⟩
  · intro h
    have := init_loop_timeout g 10 0 0 [] (fun i hi1 hi2 => h i (by omega))
    simpa [Serial.initializeConn] using this
  · intro k b hk h hgk hb
    have := init_loop_stops g b hb k 10 0 0 [] hk (fun i hi1 hi2 => h i (by omega))
      (by simpa using hgk)
    simpa [Serial.initializeConn] using this
  · intro k e hk h hgk he
    have := init_loop_fails g e he k 10 0 0 [] hk (fun i hi1 hi2 => h i (by omega))
      (by simpa using hgk)
    simpa [Serial.initializeConn] using this

/-- Witness for C6: the always-timing-out link fails with `Timeout` after
10 attempts. -/
theorem C6_uart_initialize_retry_policy_witness :
    Serial.initializeConn (serialScriptAt timeoutReads 0 0 []) =
      (Except.error DfuLoaderError.Timeout,
       serialScriptAt timeoutReads 10 10 (initOps 10)) :=
  (C6_uart_initialize_retry_policy timeoutReads).1 (fun i _ => ⟨i, rfl⟩)

/-- C8: SPI `erase_all` tolerates 0xFF/0xA5 for its whole 20-poll window
and returns success on exhaustion; a non-tolerated status propagates
immediately as `CommandFailed`; UART `erase_all` returns `Timeout` when
its 20-poll window is exhausted by read timeouts. -/
theorem C8_erase_all_exhaustion_policy (f : Nat → List Nat)
    (g : Nat → Except IoError (List Nat)) :
    ((f 0).getD 4 0 = 0x79 →
      (∀ i, 1 ≤ i → i ≤ 20 → (f i).getD 1 0 = 0xFF ∨ (f i).getD 1 0 = 0xA5) →
      (Spi.erase_all (spiStateAt f 0 0 [])).1 = Except.ok () ∧
      countAckPolls (Spi.erase_all (spiStateAt f 0 0 [])).2.log = 20) ∧
    (∀ k s, (f 0).getD 4 0 = 0x79 → k + 1 ≤ 20 →
      (∀ i, 1 ≤ i → i ≤ k → (f i).getD 1 0 = 0xFF ∨ (f i).getD 1 0 = 0xA5) →
      (f (k + 1)).getD 1 0 = s → s ≠ 0x79 → s ≠ 0xFF → s ≠ 0xA5 →
      (Spi.erase_all (spiStateAt f 0 0 [])).1 =
        Except.error (DfuLoaderError.CommandFailed s) ∧
      countAckPolls (Spi.erase_all (spiStateAt f 0 0 [])).2.log = k + 1) ∧
    (g 0 = Except.ok [0x79] →
      (∀ i, 1 ≤ i → ∃ u, g i = Except.error { kind := IoErrorKind.timedOut, tag := u }) →
      (Serial.erase_all (serialScriptAt g 0 0 [])).1 = Except.error DfuLoaderError.Timeout ∧
      (Serial.erase_all (serialScriptAt g 0 0 [])).2.nw = 2 ∧
      (Serial.erase_all (serialScriptAt g 0 0 [])).2.nr = 21) := by
  refine ⟨?_, ?_, ?_⟩
  · intro hcmd hff
    have ecmd := spi_send_command_at f 0 0 [] 0x44
    rw [hcmd, if_pos rfl] at ecmd
    simp only [Nat.reduceAdd, List.nil_append] at ecmd
    have ewb : Spi.write_block
        (spiStateAt f 1 0 [SpiOp.transfer [0x5A, 0x44, 0x44 ^^^ 0xFF, 0x00, 0x00, 0x79]])
        [0xFF, 0xFF, 0xFF ^^^ 0xFF] =
        (Except.ok (), spiStateAt f 1 (0 + 1)
          ([SpiOp.transfer [0x5A, 0x44, 0x44 ^^^ 0xFF, 0x00, 0x00, 0x79]] ++
           [SpiOp.write [0xFF, 0xFF, 0xFF ^^^ 0xFF]])) := by
      simp only [Spi.write_block, spi_write_at]
    have eloop := spi_erase_loop_skip f 20 0 1 (0 + 1)
      ([SpiOp.transfer [0x5A, 0x44, 0x44 ^^^ 0xFF, 0x00, 0x00, 0x79]] ++
       [SpiOp.write [0xFF, 0xFF, 0xFF ^^^ 0xFF]])
      (fun i hi1 hi2 => hff i (by omega) (by omega))
    simp only [Nat.add_zero] at eloop
    have main : Spi.erase_all (spiStateAt f 0 0 []) =
        (Except.ok (), spiStateAt f (1 + 20) (0 + 1)
          (([SpiOp.transfer [0x5A, 0x44, 0x44 ^^^ 0xFF, 0x00, 0x00, 0x79]] ++
            [SpiOp.write [0xFF, 0xFF, 0xFF ^^^ 0xFF]]) ++ ackOps 20)) := by
      simp only [Spi.erase_all, ecmd, bindE, ewb]
      rw [eloop]
      simp only [Spi.erase_all_loop]
    rw [main]
    refine ⟨rfl, ?_⟩
    simp only [spiStateAt, countAckPolls_append, countAckPolls_ackOps]
    decide
  · intro k s hcmd hk htol hbad h79 hffs ha5
    have ecmd := spi_send_command_at f 0 0 [] 0x44
    rw [hcmd, if_pos rfl] at ecmd
    simp only [Nat.reduceAdd, List.nil_append] at ecmd
    have ewb : Spi.write_block
        (spiStateAt f 1 0 [SpiOp.transfer [0x5A, 0x44, 0x44 ^^^ 0xFF, 0x00, 0x00, 0x79]])
        [0xFF, 0xFF, 0xFF ^^^ 0xFF] =
        (Except.ok (), spiStateAt f 1 (0 + 1)
          ([SpiOp.transfer [0x5A, 0x44, 0x44 ^^^ 0xFF, 0x00, 0x00, 0x79]] ++
           [SpiOp.write [0xFF, 0xFF, 0xFF ^^^ 0xFF]])) := by
      simp only [Spi.write_block, spi_write_at]
    have eloop := spi_erase_loop_skip f k ((20 - k - 1) + 1) 1 (0 + 1)
      ([SpiOp.transfer [0x5A, 0x44, 0x44 ^^^ 0xFF, 0x00, 0x00, 0x79]] ++
       [SpiOp.write [0xFF, 0xFF, 0xFF ^^^ 0xFF]])
      (fun i hi1 hi2 => htol i (by omega) (by omega))
    have ebad := spi_erase_loop_bad f (20 - k - 1) (1 + k) (0 + 1)
      (([SpiOp.transfer [0x5A, 0x44, 0x44 ^^^ 0xFF, 0x00, 0x00, 0x79]] ++
        [SpiOp.write [0xFF, 0xFF, 0xFF ^^^ 0xFF]]) ++ ackOps k) s
      (by rw [show 1 + k = k + 1 by omega]; exact hbad) h79 hffs ha5
    have e20 : (20 : Nat) = k + ((20 - k - 1) + 1) := by omega
    have main : Spi.erase_all (spiStateAt f 0 0 []) =
        (Except.error (DfuLoaderError.CommandFailed s),
         spiStateAt f (1 + k + 1) (0 + 1)
           ((([SpiOp.transfer [0x5A, 0x44, 0x44 ^^^ 0xFF, 0x00, 0x00, 0x79]] ++
              [SpiOp.write [0xFF, 0xFF, 0xFF ^^^ 0xFF]]) ++ ackOps k) ++
            [SpiOp.transfer [0x00, 0x00, 0x79]])) := by
      simp only [Spi.erase_all, ecmd, bindE, ewb]
      rw [e20, eloop, ebad]
    rw [main]
    refine ⟨rfl, ?_⟩
    simp only [spiStateAt, countAckPolls_append, countAckPolls_ackOps,
      show countAckPolls [SpiOp.transfer [0x5A, 0x44, 0x44 ^^^ 0xFF, 0x00, 0x00, 0x79]] = 0
        by decide,
      show countAckPolls [SpiOp.write [0xFF, 0xFF, 0xFF ^^^ 0xFF]] = 0 by decide,
      show countAckPolls [SpiOp.transfer [0x00, 0x00, 0x79]] = 1 by decide]
    omega
  · intro hg0 hg
    have ecmd := serial_send_command_ok g 0 0 [] 0x44 hg0
    simp only [Nat.reduceAdd, List.nil_append, Nat.zero_add] at ecmd
    have eloop := uart_erase_loop_timeout g 20 (1 + 1) 1
      ([LinkOp.write [0x44, 0x44 ^^^ 0xFF], LinkOp.readExact 1] ++
       [LinkOp.write [0xFF, 0xFF, 0x00]])
      (fun i hi1 hi2 => hg i (by omega))
    have main : Serial.erase_all (serialScriptAt g 0 0 []) =
        (Except.error DfuLoaderError.Timeout,
         serialScriptAt g (1 + 1) (1 + 20)
           (([LinkOp.write [0x44, 0x44 ^^^ 0xFF], LinkOp.readExact 1] ++
             [LinkOp.write [0xFF, 0xFF, 0x00]]) ++ readAckOps 20)) := by
      simp only [Serial.erase_all, ecmd, bindE, serial_writeAll_at]
      rw [eloop]
    rw [main]
    refine ⟨rfl, by simp [serialScriptAt], by simp [serialScriptAt]⟩

/-- Witness for C8: the busy-poll SPI script succeeds after the full
window, and the timing-out UART script fails with `Timeout`. -/
theorem C8_erase_all_exhaustion_policy_witness :
    ((Spi.erase_all (spiStateAt busyPolls 0 0 [])).1 = Except.ok () ∧
     countAckPolls (Spi.erase_all (spiStateAt busyPolls 0 0 [])).2.log = 20) ∧
    ((Serial.erase_all (serialScriptAt uartEraseReads 0 0 [])).1 =
       Except.error DfuLoaderError.Timeout ∧
     (Serial.erase_all (serialScriptAt uartEraseReads 0 0 [])).2.nw = 2 ∧
     (Serial.erase_all (serialScriptAt uartEraseReads 0 0 [])).2.nr = 21) :=
  ⟨(C8_erase_all_exhaustion_policy busyPolls uartEraseReads).1 rfl
    (fun i hi1 _ => Or.inl (by
      have hne : ¬(i = 0) := by omega
      simp [busyPolls, hne])),
   (C8_erase_all_exhaustion_policy busyPolls uartEraseReads).2.2 rfl
    (fun i hi1 => ⟨i, by
      have hne : ¬(i = 0) := by omega
      simp [uartEraseReads, hne]⟩)⟩

/-- C9 amended: `send_command` turns a failed command-frame write into
`ProtocolError`, while the ACK read, the post-command frame writes and
`read_bytes` surface the underlying I/O error unchanged as `IOError`. -/
theorem C9_io_failure_propagation (e : IoError) (l1 l2 l3 : Link) (fuel size : Nat)
    (h1 : l1.writeResults l1.nw = some e)
    (h2 : l2.reads l2.nr = Except.error e)
    (h3 : l3.writeResults l3.nw = none)
    (h4 : l3.reads l3.nr = Except.ok [0x79])
    (h5 : l3.writeResults (l3.nw + 1) = some e) :
    (Serial.send_command l1 0x21).1 = Except.error DfuLoaderError.ProtocolError ∧
    (Serial.read_ack l2).1 = Except.error (DfuLoaderError.IOError e) ∧
    (Serial.go 0 l3).1 = Except.error (DfuLoaderError.IOError e) ∧
    (Serial.read_bytesF (fuel + 1) size l2).1 = Outcome.err (DfuLoaderError.IOError e) := by
  refine ⟨?_, ?_, ?_, ?_⟩
  · simp [Serial.send_command, Link.writeAll, h1]
  · simp [Serial.read_ack, Link.readExact, h2]
  · simp [Serial.go, bindE, Serial.send_command, Link.writeAll, Serial.read_ack,
      Link.readExact, h3, h4, h5]
  · simp [Serial.read_bytesF, Serial.read_bytes_loopF, Link.readUpTo255, h2]

/-- Witness for the amended C9 on the concrete fault-injection links. -/
theorem C9_io_failure_propagation_witness :
    (Serial.send_command failWriteLink 0x21).1 =
      Except.error DfuLoaderError.ProtocolError ∧
    (Serial.read_ack errReadLink).1 =
      Except.error (DfuLoaderError.IOError { kind := IoErrorKind.other, tag := 7 }) ∧
    (Serial.go 0 secondWriteFailsLink).1 =
      Except.error (DfuLoaderError.IOError { kind := IoErrorKind.other, tag := 7 }) ∧
    (Serial.read_bytesF 1 4 errReadLink).1 =
      Outcome.err (DfuLoaderError.IOError { kind := IoErrorKind.other, tag := 7 }) :=
  C9_io_failure_propagation { kind := IoErrorKind.other, tag := 7 }
    failWriteLink errReadLink secondWriteFailsLink 0 4 rfl rfl rfl rfl rfl

/-- C10 amended: `read_bytes` runs forever on any all-successful fragment
sequence whose running totals never equal the target; the
`supported_functions` inline loop runs forever when the totals also stay
within its 255-byte buffer (a fragment pushing the total past 255 panics
instead — see the counterexample). -/
theorem C10_accumulation_loops_diverge (f : Nat → List Nat) (size target fuel : Nat)
    (hf : ∀ i, (f i).length ≤ 255)
    (hs : ∀ k, 1 ≤ k → fragSum f 0 k ≠ size)
    (ht : ∀ k, 1 ≤ k → fragSum f 0 k ≠ target)
    (hb : ∀ k, fragSum f 0 k ≤ 255) :
    (Serial.read_bytesF fuel size (serialFragLink f 0 0 [])).1 = Outcome.diverged ∧
    (Serial.sf_loopF target fuel (List.replicate 255 0) 0 (serialFragLink f 0 0 [])).1 =
      Outcome.diverged := by
  constructor
  · exact read_bytes_loop_diverges f size hf fuel [] 0 0 0 []
      (fun k hk => by simpa using hs k hk)
  · exact sf_loop_diverges f target hf fuel (List.replicate 255 0) 0 0 0 []
      (fun k hk => by simpa using ht k hk)
      (fun k => by simpa using hb k)

/-- Witness for the amended C10: a link that forever delivers empty reads
makes both loops run forever (at every fuel). -/
theorem C10_accumulation_loops_diverge_witness :
    (Serial.read_bytesF 5 1 (serialFragLink (fun _ => []) 0 0 [])).1 =
      Outcome.diverged ∧
    (Serial.sf_loopF 2 5 (List.replicate 255 0) 0
      (serialFragLink (fun _ => []) 0 0 [])).1 = Outcome.diverged :=
  C10_accumulation_loops_diverge (fun _ => []) 1 2 5
    (fun i => by simp)
    (fun k hk => by simp [fragSum_nil])
    (fun k hk => by simp [fragSum_nil])
    (fun k => by simp [fragSum_nil])

end Stm32
